import Mathlib

/-
Verification development for the PTX device code generator
(src/CodeGen_PTX_Dev.cpp): a shallow embedding of the GPU kernel
lowering and pattern-rewriting engine, with theorems checking the
natural-language specification against the embedded code.
-/

namespace PTXDev

/-! ## Halide type model (Type from the Halide IR) -/

/-- Type codes of the Halide type system that this backend distinguishes
(Int, UInt, Float, Handle). -/
inductive TypeCode where
  | int
  | uint
  | float
  | handle
deriving DecidableEq, Repr

/-- A Halide type: code, bit width, and lane count. -/
structure HType where
  code : TypeCode
  bits : Nat
  lanes : Nat
deriving DecidableEq, Repr

/-- Scalar element type (Type::element_of). -/
def HType.element_of (t : HType) : HType :=
  { t with lanes := 1 }

/-- Type::is_uint. -/
def HType.is_uint (t : HType) : Bool :=
  t.code == TypeCode.uint

/-- Type::is_int. -/
def HType.is_int (t : HType) : Bool :=
  t.code == TypeCode.int

/-- Type::is_int_or_uint. -/
def HType.is_int_or_uint (t : HType) : Bool :=
  t.code == TypeCode.int || t.code == TypeCode.uint

/-- Type::is_float. -/
def HType.is_float (t : HType) : Bool :=
  t.code == TypeCode.float

/-- Int(32): the 32-bit signed scalar type. -/
def int32T : HType := ⟨TypeCode.int, 32, 1⟩

/-- UInt(32): the 32-bit unsigned scalar type. -/
def uint32T : HType := ⟨TypeCode.uint, 32, 1⟩

/-- UInt(128): the wide type used by the 4-lane 32-bit access fusion. -/
def uint128T : HType := ⟨TypeCode.uint, 128, 1⟩

/-- UInt(1): the type of boolean immediates (predicates). -/
def uint1T : HType := ⟨TypeCode.uint, 1, 1⟩

/-- Int(8, L). -/
def int8V (L : Nat) : HType := ⟨TypeCode.int, 8, L⟩

/-- UInt(8, L). -/
def uint8V (L : Nat) : HType := ⟨TypeCode.uint, 8, L⟩

/-- Int(16, L). -/
def int16V (L : Nat) : HType := ⟨TypeCode.int, 16, L⟩

/-- UInt(16, L). -/
def uint16V (L : Nat) : HType := ⟨TypeCode.uint, 16, L⟩

/-! ## Expressions

A fragment of the Halide expression IR sufficient for the constructs the
PTX backend inspects and produces: immediates, variables, arithmetic,
ramps, broadcasts, loads, casts and reinterpret. -/

/-- Compile-time alignment information of a load/store
(ModulusRemainder: the index is provably equal to remainder modulo
modulus). -/
structure ModRem where
  modulus : Int
  remainder : Int
deriving DecidableEq, Repr

/-- Halide expressions (the fragment used by this backend). Immediates
carry their type, so IntImm/UIntImm are both represented by intImm. -/
inductive Expr where
  | intImm (t : HType) (v : Int)
  | var (t : HType) (n : String)
  | add (a b : Expr)
  | mul (a b : Expr)
  | div (a b : Expr)
  | ramp (base stride : Expr) (lanes : Nat)
  | broadcast (e : Expr) (lanes : Nat)
  | load (t : HType) (n : String) (index pred : Expr) (align : ModRem)
  | cast (t : HType) (e : Expr)
  | reinterpret (t : HType) (e : Expr)
deriving DecidableEq, Repr

/-- The type of an expression (Expr::type()). A Ramp or Broadcast has
its base's scalar type at the node's lane count. -/
def exprType : Expr → HType
  | .intImm t _ => t
  | .var t _ => t
  | .add a _ => exprType a
  | .mul a _ => exprType a
  | .div a _ => exprType a
  | .ramp base _ lanes => { exprType base with lanes := lanes }
  | .broadcast e lanes => { exprType e with lanes := lanes }
  | .load t _ _ _ _ => t
  | .cast t _ => t
  | .reinterpret t _ => t

/-- is_const_one: the expression is an immediate one (through
broadcasts), i.e. a trivially-true predicate. -/
def is_const_one : Expr → Bool
  | .intImm _ v => v == 1
  | .broadcast e _ => is_const_one e
  | _ => false

/-- is_const_zero: the expression is an immediate zero (through
broadcasts). -/
def is_const_zero : Expr → Bool
  | .intImm _ v => v == 0
  | .broadcast e _ => is_const_zero e
  | _ => false

/-- as_const_int: the value of a scalar signed-integer immediate. -/
def as_const_int : Expr → Option Int
  | .intImm t v => if t.code == TypeCode.int && t.lanes == 1 then some v else none
  | _ => none

/-- const_true(lanes): an immediate true of type UInt(1, lanes). -/
def const_true (lanes : Nat) : Expr :=
  if lanes = 1 then .intImm uint1T 1 else .broadcast (.intImm uint1T 1) lanes

/-! ## Target capability resolution -/

/-- The CUDA capability feature flags of the compilation target
(the subset of Target features this backend consults). -/
structure Target where
  cuda30 : Bool
  cuda32 : Bool
  cuda35 : Bool
  cuda50 : Bool
  cuda61 : Bool
  cuda70 : Bool
  cuda75 : Bool
  cuda80 : Bool
deriving DecidableEq, Repr

/-- CodeGen_PTX_Dev::mcpu (lines 547-567): architecture id selected by
testing the generation flags from newest to oldest, first match wins,
falling back to sm_20. -/
def mcpu (t : Target) : String :=
  if t.cuda80 then "sm_80"
  else if t.cuda75 then "sm_75"
  else if t.cuda70 then "sm_70"
  else if t.cuda61 then "sm_61"
  else if t.cuda50 then "sm_50"
  else if t.cuda35 then "sm_35"
  else if t.cuda32 then "sm_32"
  else if t.cuda30 then "sm_30"
  else "sm_20"

/-- CodeGen_PTX_Dev::mattrs (lines 569-585): the PTX ISA feature string;
note the groupings differ from the generation list (70 and 75 share
ptx60; 32 and 50 share ptx40; 30 and 35 fall through to the default). -/
def mattrs (t : Target) : String :=
  if t.cuda80 then "+ptx70"
  else if t.cuda70 || t.cuda75 then "+ptx60"
  else if t.cuda61 then "+ptx50"
  else if t.cuda32 || t.cuda50 then "+ptx40"
  else ""

/-- Modelled from the spec: Target::get_cuda_capability_lower_bound is
declared outside this source file; per the spec it resolves the flag set
to the hardware generation, choosing the highest generation flag present
(newest to oldest, first match wins) and falling back to the oldest
supported generation. -/
def get_cuda_capability_lower_bound (t : Target) : Int :=
  if t.cuda80 then 80
  else if t.cuda75 then 75
  else if t.cuda70 then 70
  else if t.cuda61 then 61
  else if t.cuda50 then 50
  else if t.cuda35 then 35
  else if t.cuda32 then 32
  else if t.cuda30 then 30
  else 20

/-- CodeGen_PTX_Dev::supports_atomic_add (lines 782-798). -/
def supports_atomic_add (tgt : Target) (t : HType) : Bool :=
  if t.bits < 32 then
    false
  else if t.is_int_or_uint then
    true
  else if t.is_float && t.bits == 32 then
    true
  else if t.is_float && t.bits == 64 then
    -- double atomics are supported since CC6.1
    decide (get_cuda_capability_lower_bound tgt ≥ 61)
  else
    false

/-- Ordered architecture-id table, newest generation first, used to
state the first-match-wins property of mcpu. -/
def genTable : List ((Target → Bool) × String) :=
  [(Target.cuda80, "sm_80"), (Target.cuda75, "sm_75"), (Target.cuda70, "sm_70"),
   (Target.cuda61, "sm_61"), (Target.cuda50, "sm_50"), (Target.cuda35, "sm_35"),
   (Target.cuda32, "sm_32"), (Target.cuda30, "sm_30")]

/-- Rank of a PTX ISA feature string: larger means a newer instruction
set; the empty string is the oldest (the toolchain default). -/
def ptxRank (s : String) : Nat :=
  if s == "+ptx70" then 70
  else if s == "+ptx60" then 60
  else if s == "+ptx50" then 50
  else if s == "+ptx40" then 40
  else 0

/-- The flag set holding only the newest generation flag. -/
def targetOnly80 : Target :=
  ⟨false, false, false, false, false, false, false, true⟩

/-! ## Error taxonomy (section 7 of the spec)

The code signals these through user_assert / internal_assert; the spec
names them as the listed error kinds. -/

/-- Lowering failure kinds. -/
inductive Err where
  | UnsupportedConstruct
  | DynamicSizeInKernel
  | UnsupportedAtomicWidth
  | MalformedIntrinsic
  | ContractViolation
  | ValidationFailed
  | InternalError
deriving DecidableEq, Repr

/-! ## Loop lowering (visit(const For *), simt_intrinsic) -/

/-- String suffix test (the ends_with helper the source uses). -/
def ends_with (s suffix : String) : Bool :=
  List.isPrefixOf suffix.data.reverse s.data.reverse

/-- CodeGen_PTX_Dev::simt_intrinsic (lines 254-274): fixed table keyed
on the suffix of the loop-variable name; none models the
internal_error on a non-axis name. -/
def simt_intrinsic (name : String) : Option String :=
  if ends_with name ".__thread_id_x" then some "llvm.nvvm.read.ptx.sreg.tid.x"
  else if ends_with name ".__thread_id_y" then some "llvm.nvvm.read.ptx.sreg.tid.y"
  else if ends_with name ".__thread_id_z" then some "llvm.nvvm.read.ptx.sreg.tid.z"
  else if ends_with name ".__thread_id_w" then some "llvm.nvvm.read.ptx.sreg.tid.w"
  else if ends_with name ".__block_id_x" then some "llvm.nvvm.read.ptx.sreg.ctaid.x"
  else if ends_with name ".__block_id_y" then some "llvm.nvvm.read.ptx.sreg.ctaid.y"
  else if ends_with name ".__block_id_z" then some "llvm.nvvm.read.ptx.sreg.ctaid.z"
  else if ends_with name ".__block_id_w" then some "llvm.nvvm.read.ptx.sreg.ctaid.w"
  else none

/-- Modelled from the spec: is_gpu_var is declared in CodeGen_GPU_Dev
(outside this source file); per the spec a loop variable denotes a
GPU-builtin axis when it is a thread or block index along x/y/z/w,
recognized by the suffix of the name. -/
def is_gpu_var (name : String) : Bool :=
  ends_with name ".__thread_id_x" || ends_with name ".__thread_id_y" ||
  ends_with name ".__thread_id_z" || ends_with name ".__thread_id_w" ||
  ends_with name ".__block_id_x" || ends_with name ".__block_id_y" ||
  ends_with name ".__block_id_z" || ends_with name ".__block_id_w"

/-- Values bound in the symbol table by this backend. -/
inductive BoundValue where
  | simtCall (intrinsic : String)
  | nullPtr (addrspace : Nat)
  | allocaPtr (name : String)
deriving DecidableEq, Repr

/-- A For loop node. The body is abstract (its codegen trace is passed
to the visitor separately). -/
structure ForNode where
  name : String
  min : Expr
  extent : Expr
  bodyId : Nat
deriving DecidableEq, Repr

/-- Observable lowering events: symbol-table pushes/pops, entry-block
allocas, and delegation of a loop to the generic path. -/
inductive Event where
  | push (n : String) (v : BoundValue)
  | pop (n : String)
  | alloca (n : String) (t : HType) (size : Int) (inEntryBlock : Bool)
  | genericFor (loop : ForNode)
  | instr (tag : String)
deriving DecidableEq, Repr

/-- CodeGen_PTX_Dev::visit(const For *) (lines 276-286). bodyEvents is
the trace of codegen(loop->body); on the simt path the body is lowered
exactly once between the push and the pop of the loop variable. -/
def visit_for (bodyEvents : List Event) (loop : ForNode) : Except Err (List Event) :=
  if is_gpu_var loop.name then
    match simt_intrinsic loop.name with
    | some intr =>
        -- internal_assert(is_const_zero(loop->min))
        if is_const_zero loop.min then
          .ok ([Event.push loop.name (BoundValue.simtCall intr)] ++ bodyEvents
               ++ [Event.pop loop.name])
        else
          .error Err.ContractViolation
    | none => .error Err.InternalError
  else
    .ok [Event.genericFor loop]

/-! ## Allocate / Free lowering (visit(const Allocate *), visit(const Free *)) -/

/-- Memory spaces distinguished by the Allocate lowering. -/
inductive MemType where
  | gpuShared
  | stack
  | heap
  | auto
deriving DecidableEq, Repr

/-- An Allocate node: name, element type, memory space, optional custom
new-expression, extents.  The body is abstract. -/
structure AllocNode where
  name : String
  t : HType
  memory_type : MemType
  new_expr : Option Expr
  extents : List Expr
deriving DecidableEq, Repr

/-- Product of the constant extents, or none if any extent is not an
immediate. -/
def constAllocSizeAux : List Expr → Option Int
  | [] => some 1
  | e :: rest =>
      match e with
      | .intImm _ v => (constAllocSizeAux rest).map (fun r => r * v)
      | _ => none

/-- Modelled from the spec: Allocate::constant_allocation_size is
declared in the IR module (outside this source file); per the spec it
is the statically known element count, or 0 when the size is not a
compile-time constant. -/
def constant_allocation_size (extents : List Expr) : Int :=
  (constAllocSizeAux extents).getD 0

/-- CodeGen_PTX_Dev::visit(const Allocate *) (lines 288-319). bodyEvents
is the trace of codegen(alloc->body). The binding pushed here is not
popped: the matching Free pops it. -/
def visit_allocate (bodyEvents : List Event) (alloc : AllocNode) : Except Err (List Event) :=
  -- user_assert(!alloc->new_expr.defined())
  if alloc.new_expr.isSome then
    .error Err.UnsupportedConstruct
  else if alloc.memory_type == MemType.gpuShared then
    -- PTX uses zero in address space 3 as the base address for shared memory
    .ok ([Event.push alloc.name (BoundValue.nullPtr 3)] ++ bodyEvents)
  else
    let size := constant_allocation_size alloc.extents
    -- internal_assert(size > 0)
    if size ≤ 0 then
      .error Err.DynamicSizeInKernel
    else
      -- jump back to the entry block, alloca there, return to the
      -- current insertion point, then push the binding
      .ok ([Event.alloca alloc.name alloc.t size true,
            Event.push alloc.name (BoundValue.allocaPtr alloc.name)] ++ bodyEvents)

/-- CodeGen_PTX_Dev::visit(const Free *) (lines 321-323): pops the name;
emits no instruction. -/
def visit_free (name : String) : List Event :=
  [Event.pop name]

/-! ## Barrier lowering (visit(const Call *)) -/

/-- A Call node as seen by the visitor: name, whether it is a Halide
intrinsic, and its arguments. -/
structure CallNode where
  name : String
  isIntrinsic : Bool
  args : List Expr
deriving DecidableEq, Repr

/-- Result of lowering a Call. -/
inductive CallLowering where
  | barrier (fn : String) (result : Expr)
  | generic
deriving DecidableEq, Repr

/-- CodeGen_PTX_Dev::visit(const Call *) (lines 234-252): the
gpu_thread_barrier intrinsic must carry exactly one constant-integer
argument; a call to llvm.nvvm.barrier0 is emitted regardless of the
requested fence type, with result value zero.  Other calls go to the
generic path. -/
def visit_call (op : CallNode) : Except Err CallLowering :=
  if op.isIntrinsic && op.name == "gpu_thread_barrier" then
    match op.args with
    | [fence] =>
        match as_const_int fence with
        | some _ => .ok (CallLowering.barrier "llvm.nvvm.barrier0" (.intImm int32T 0))
        | none => .error Err.MalformedIntrinsic
    | _ => .error Err.MalformedIntrinsic
  else
    .ok CallLowering.generic

/-! ## Load / Store lowering with the wide-access fusion -/

/-- A Load node: type, buffer name, index, predicate, alignment. -/
structure LoadNode where
  t : HType
  name : String
  index : Expr
  predicate : Expr
  alignment : ModRem
deriving DecidableEq, Repr

/-- A Store node: buffer name, value, index, predicate, alignment. -/
structure StoreNode where
  name : String
  value : Expr
  index : Expr
  predicate : Expr
  alignment : ModRem
deriving DecidableEq, Repr

/-- Modelled from the spec: ModulusRemainder division by the fusion
factor (align / 4 in the source) is declared outside this source file;
per the spec the alignment is divided accordingly, which on a modulus
and remainder that are both multiples of 4 is componentwise division. -/
def mrDiv4 (a : ModRem) : ModRem :=
  ⟨a.modulus / 4, a.remainder / 4⟩

/-- Result of lowering a Load. -/
inductive LoadLowering where
  | fused (equiv : Expr)
  | generic
deriving DecidableEq, Repr

/-- CodeGen_PTX_Dev::visit(const Load *) (lines 331-349): an aligned
4-wide 32-bit load with a trivially-true predicate and a stride-one ramp
index becomes a single UInt(128) load at index base/4 with alignment
divided by 4, reinterpreted back to the original type.  (The source
wraps the new index in simplify, which is semantics-preserving and
external; the index here is the division itself.) -/
def visit_load (op : LoadNode) : LoadLowering :=
  match op.index with
  | .ramp base stride lanes =>
      if is_const_one op.predicate && is_const_one stride && lanes == 4
          && op.t.bits == 32 then
        if op.alignment.modulus % 4 == 0 && op.alignment.remainder % 4 == 0 then
          .fused (.reinterpret op.t
            (.load uint128T op.name (.div base (.intImm (exprType base) 4))
              (const_true 1) (mrDiv4 op.alignment)))
        else
          .generic
      else
        .generic
  | _ => .generic

/-- Result of lowering a Store. -/
inductive StoreLowering where
  | fused (equiv : StoreNode)
  | generic
deriving DecidableEq, Repr

/-- CodeGen_PTX_Dev::visit(const Store *) (lines 351-373): when inside
an Atomic node (emit_atomic_stores set) the store must be unpredicated
and at least 32 bits wide; then the same aligned 4-wide 32-bit fusion as
for loads rewrites the store into a single UInt(128) store. -/
def visit_store (emit_atomic_stores : Bool) (op : StoreNode) : Except Err StoreLowering :=
  -- user_assert(is_const_one(op->predicate)): no predicated atomic store
  if emit_atomic_stores && !(is_const_one op.predicate) then
    .error Err.UnsupportedAtomicWidth
  -- user_assert(op->value.type().bits() >= 32): no 8/16-bit atomics
  else if emit_atomic_stores && (exprType op.value).bits < 32 then
    .error Err.UnsupportedAtomicWidth
  else
    match op.index with
    | .ramp base stride lanes =>
        if is_const_one op.predicate && is_const_one stride && lanes == 4
            && (exprType op.value).bits == 32 then
          if op.alignment.modulus % 4 == 0 && op.alignment.remainder % 4 == 0 then
            .ok (StoreLowering.fused
              ⟨op.name, .reinterpret uint128T op.value,
               .div base (.intImm (exprType base) 4), const_true 1,
               mrDiv4 op.alignment⟩)
          else
            .ok StoreLowering.generic
        else
          .ok StoreLowering.generic
    | _ => .ok StoreLowering.generic

/-! ## Atomic region lowering (visit(const Atomic *)) -/

/-- An Atomic node: mutex name and, abstractly, the stores of its body
(the part of the body this backend treats specially). -/
structure AtomicNode where
  mutex_name : String
  body : List StoreNode

/-- CodeGen_PTX_Dev::visit(const Atomic *) (lines 375-384): a non-empty
mutex name is rejected; otherwise emit_atomic_stores is set to true for
the duration of the body (ScopedValue) and restored afterwards.  The
result carries the lowered body stores and the flag value after exit. -/
def visit_atomic (emit_atomic_stores : Bool) (op : AtomicNode) :
    Except Err (List StoreLowering × Bool) :=
  if op.mutex_name ≠ "" then
    .error Err.UnsupportedConstruct
  else
    match op.body.mapM (visit_store true) with
    | .ok lowered => .ok (lowered, emit_atomic_stores)
    | .error e => .error e

/-! ## Kernel emission (add_kernel) -/

/-- A device argument: name, buffer flag, type. -/
structure DeviceArgument where
  name : String
  is_buffer : Bool
  t : HType
deriving DecidableEq, Repr

/-- Events of the kernel emission controller. -/
inductive KEvent where
  | createFunction
  | markNoAlias (argName : String)
  | push (n : String)
  | pop (n : String)
  | retVoid
  | brEntryToBody
  | markKernelEntry
  | verifyFunction (ok : Bool)
  | verifyModule (ok : Bool)
  | bodyInstr (tag : String)
deriving DecidableEq, Repr

/-- Result of add_kernel: the emission trace and whether the finished
function is present in the module. -/
structure AddKernelResult where
  events : List KEvent
  functionInModule : Bool
deriving DecidableEq, Repr

/-- CodeGen_PTX_Dev::add_kernel (lines 136-224).  bodyEvents is the
trace of lowering the kernel body; fnOk and modOk are the outcomes of
the structural verification of the function and the module
(verifyFunction / verifyModule are external).  The source discards both
verification results, so lowering always completes: the verdicts are
recorded in the trace but never turned into an error. -/
def add_kernel (args : List DeviceArgument) (bodyEvents : List KEvent)
    (fnOk modOk : Bool) : Except Err AddKernelResult :=
  Except.ok
    { events :=
        [KEvent.createFunction]
        ++ ((args.filter (fun a => a.is_buffer)).map (fun a => KEvent.markNoAlias a.name))
        ++ (args.map (fun a => KEvent.push a.name))
        ++ bodyEvents
        ++ [KEvent.retVoid, KEvent.brEntryToBody, KEvent.markKernelEntry,
            KEvent.verifyFunction fnOk, KEvent.verifyModule modOk]
        ++ (args.map (fun a => KEvent.pop a.name)),
      functionInModule := true }

/-! ## Dot-product reduction fusion (codegen_vector_reduce)

The narrowing logic (lines 386-448) takes the lossless_cast analysis as
an oracle parameter: lossless_cast lives outside this source file, and
the matcher behavior claimed by the spec is its control flow over the
oracle's answers.  The construction of the fused expression after the
instruction name has been selected (lines 449-537) is summarized by the
selected instruction name, the two narrowed operands and the initial
accumulator. -/

/-- VectorReduce operators. -/
inductive ReduceOp where
  | add
  | saturatingAdd
  | mulOp
  | minOp
  | maxOp
deriving DecidableEq, Repr

/-- A VectorReduce node: operator, vector operand, result type. -/
structure VectorReduceNode where
  op : ReduceOp
  value : Expr
  t : HType
deriving DecidableEq, Repr

/-- Result of codegen_vector_reduce: either the selected fused
dot-product instruction with its narrowed operands and initial
accumulator, or the generic reduction path. -/
inductive VRLowering where
  | fused (instr : String) (a b init : Expr)
  | generic
deriving DecidableEq, Repr

/-- Fused instruction name selection (lines 433-448): dp4a for an
8-bit/8-bit pair, dp2a for the mixed pair, suffixed with the signedness
of the first and then the second operand. -/
def dpName (ta tb : HType) : String :=
  (if ta.bits == 8 then "dp4a" else "dp2a")
  ++ (if ta.is_int then "_s32" else "_u32")
  ++ (if tb.is_int then "_s32" else "_u32")

/-- First narrowing step (lines 401-416): try to narrow both multiply
operands to 8-bit — unsigned for an unsigned target; for a signed
target, signed with a per-operand unsigned retry on failure. -/
def narrow8pair (lc : HType → Expr → Option Expr) (t : HType) (L : Nat)
    (ma mb : Expr) : Option Expr × Option Expr :=
  if t.is_uint then
    (lc (uint8V L) ma, lc (uint8V L) mb)
  else
    let a := lc (int8V L) ma
    let b := lc (int8V L) mb
    let a2 := if !a.isSome then lc (uint8V L) ma else a
    let b2 := if !b.isSome then lc (uint8V L) mb else b
    (a2, b2)

/-- The narrowing core of codegen_vector_reduce (lines 401-448), after
the gate has matched.  Mirrors the source: 8-bit narrowing of both
operands; if exactly one narrowed, swap so the un-narrowed operand is in
the first slot and retry it at 16-bit (unsigned, then signed for a
signed target); fuse only if both slots are defined. -/
def codegen_dot_product (lc : HType → Expr → Option Expr) (t : HType) (L : Nat)
    (ma mb : Expr) (i : Expr) : VRLowering :=
  let ab := narrow8pair lc t L ma mb
  -- Expr a_orig = mul->a; if (a.defined() && !b.defined()) swap, a_orig = mul->b
  let s := if ab.1.isSome && !ab.2.isSome then (ab.2, ab.1, mb) else (ab.1, ab.2, ma)
  -- if (b.defined() && !a.defined()) try 16-bit instead
  let a2 :=
    if s.2.1.isSome && !s.1.isSome then
      let a16 := lc (uint16V L) s.2.2
      if !a16.isSome && !t.is_uint then lc (int16V L) s.2.2 else a16
    else s.1
  match a2, s.2.1 with
  | some aE, some bE => VRLowering.fused (dpName (exprType aE) (exprType bE)) aE bE i
  | _, _ => VRLowering.generic

/-- CodeGen_PTX_Dev::codegen_vector_reduce (lines 386-541): the
dot-product pattern fires only for a sum reduction of a multiply whose
input-to-output lane ratio is a multiple of 4 with a 32-bit integer
element type; otherwise the generic reduction path is used. -/
def codegen_vector_reduce (lc : HType → Expr → Option Expr)
    (op : VectorReduceNode) (init : Option Expr) : VRLowering :=
  let input_lanes := (exprType op.value).lanes
  let factor := input_lanes / op.t.lanes
  match op.value with
  | .mul ma mb =>
      if op.op == ReduceOp.add && factor % 4 == 0
          && (op.t.element_of == int32T || op.t.element_of == uint32T) then
        let i := init.getD (.cast (exprType op.value) (.intImm int32T 0))
        codegen_dot_product lc op.t input_lanes ma mb i
      else
        VRLowering.generic
  | _ => VRLowering.generic

/-! ## Theorems -/

/-- An Except value is a success. -/
def exceptOk {ε α : Type} : Except ε α → Bool
  | .ok _ => true
  | .error _ => false

/-- C7: the architecture identifier is selected by testing the
hardware-generation flags from newest to oldest (ordered table, first
match wins, fallback to the oldest supported generation sm_20); the flag
set holding only the newest generation flag resolves to the newest
architecture id and to an instruction-set feature string at least as new
as the feature string resolved for any other flag set. -/
theorem C7_capability_precedence :
    (∀ t : Target,
        mcpu t = (((genTable.find? (fun p => p.1 t)).map Prod.snd).getD "sm_20"))
    ∧ mcpu targetOnly80 = "sm_80"
    ∧ (∀ t : Target, ptxRank (mattrs t) ≤ ptxRank (mattrs targetOnly80)) := by
  refine ⟨?_, rfl, ?_⟩
  · intro t
    rcases t with ⟨a, b, c, d, e, f, g, h⟩
    cases a <;> cases b <;> cases c <;> cases d <;> cases e <;> cases f <;>
      cases g <;> cases h <;> rfl
  · intro t
    rcases t with ⟨a, b, c, d, e, f, g, h⟩
    cases a <;> cases b <;> cases c <;> cases d <;> cases e <;> cases f <;>
      cases g <;> cases h <;> decide

/-- C8: the atomic-support predicate is false below 32 bits; true for
integer types at 32 bits or more; true for 32-bit floating point; for
64-bit floating point true exactly when the resolved hardware generation
is at or above the threshold generation 61; false in every other case. -/
theorem C8_supports_atomic (tgt : Target) (t : HType) :
    (t.bits < 32 → supports_atomic_add tgt t = false)
    ∧ (32 ≤ t.bits → (t.code = TypeCode.int ∨ t.code = TypeCode.uint) →
        supports_atomic_add tgt t = true)
    ∧ (t.code = TypeCode.float → t.bits = 32 → supports_atomic_add tgt t = true)
    ∧ (t.code = TypeCode.float → t.bits = 64 →
        (supports_atomic_add tgt t = true ↔ 61 ≤ get_cuda_capability_lower_bound tgt))
    ∧ (32 ≤ t.bits → t.code = TypeCode.handle → supports_atomic_add tgt t = false)
    ∧ (32 ≤ t.bits → t.code = TypeCode.float → t.bits ≠ 32 → t.bits ≠ 64 →
        supports_atomic_add tgt t = false) := by
  refine ⟨?_, ?_, ?_, ?_, ?_, ?_⟩
  · intro h
    simp [supports_atomic_add, h]
  · intro h hc
    have hlt : ¬ (t.bits < 32) := by omega
    rcases hc with hc | hc <;>
      simp [supports_atomic_add, hlt, HType.is_int_or_uint, hc]
  · intro hc hb
    have hlt : ¬ (t.bits < 32) := by omega
    simp [supports_atomic_add, hlt, HType.is_int_or_uint, HType.is_float, hc, hb]
  · intro hc hb
    have hlt : ¬ (t.bits < 32) := by omega
    simp [supports_atomic_add, hlt, HType.is_int_or_uint, HType.is_float, hc, hb]
  · intro h hc
    have hlt : ¬ (t.bits < 32) := by omega
    simp [supports_atomic_add, hlt, HType.is_int_or_uint, HType.is_float, hc]
  · intro h hc h32 h64
    have hlt : ¬ (t.bits < 32) := by omega
    simp [supports_atomic_add, hlt, HType.is_int_or_uint, HType.is_float, hc, h32, h64]

/-- Witness for C8: 64-bit float atomics are supported on the newest
generation and 16-bit atomics are never supported. -/
theorem C8_supports_atomic_witness :
    supports_atomic_add targetOnly80 ⟨TypeCode.float, 64, 1⟩ = true
    ∧ supports_atomic_add targetOnly80 ⟨TypeCode.uint, 16, 1⟩ = false :=
  ⟨((C8_supports_atomic targetOnly80 ⟨TypeCode.float, 64, 1⟩).2.2.2.1 rfl rfl).mpr
      (by decide),
   (C8_supports_atomic targetOnly80 ⟨TypeCode.uint, 16, 1⟩).1 (by decide)⟩

/-- Helper: every GPU axis name has an entry in the register-read table. -/
theorem simt_intrinsic_isSome_of_gpu_var (name : String) (h : is_gpu_var name = true) :
    (simt_intrinsic name).isSome = true := by
  unfold is_gpu_var at h
  unfold simt_intrinsic
  split_ifs <;> simp_all

/-- C3: lowering a loop over a GPU axis requires a constant-zero lower
bound (failing fast otherwise), binds the loop variable to a call of the
register-read primitive from the fixed suffix table, lowers the body
exactly once between the push and the pop, and removes the binding on
exit; non-axis loops are delegated unchanged to the generic path. -/
theorem C3_axis_loop (bodyEvents : List Event) (loop : ForNode) :
    (is_gpu_var loop.name = true → (simt_intrinsic loop.name).isSome = true)
    ∧ (is_gpu_var loop.name = true → is_const_zero loop.min = false →
        visit_for bodyEvents loop = .error Err.ContractViolation)
    ∧ (∀ intr, is_gpu_var loop.name = true → is_const_zero loop.min = true →
        simt_intrinsic loop.name = some intr →
        visit_for bodyEvents loop =
          .ok ([Event.push loop.name (BoundValue.simtCall intr)] ++ bodyEvents
               ++ [Event.pop loop.name]))
    ∧ (is_gpu_var loop.name = false →
        visit_for bodyEvents loop = .ok [Event.genericFor loop]) := by
  refine ⟨simt_intrinsic_isSome_of_gpu_var loop.name, ?_, ?_, ?_⟩
  · intro hg hz
    have hs := simt_intrinsic_isSome_of_gpu_var loop.name hg
    rcases hi : simt_intrinsic loop.name with _ | intr
    · rw [hi] at hs; simp at hs
    · simp [visit_for, hg, hz, hi]
  · intro intr hg hz hi
    simp [visit_for, hg, hz, hi]
  · intro hg
    simp [visit_for, hg]

/-- Witness for C3: a thread-axis loop with zero lower bound lowers to
one register read around a single body trace; the same loop with a
non-zero bound fails; a non-axis loop goes to the generic path. -/
theorem C3_axis_loop_witness :
    visit_for [Event.instr "b"]
        ⟨"f.s0.x.__thread_id_x", .intImm int32T 0, .intImm int32T 16, 0⟩ =
      .ok [Event.push "f.s0.x.__thread_id_x"
             (BoundValue.simtCall "llvm.nvvm.read.ptx.sreg.tid.x"),
           Event.instr "b", Event.pop "f.s0.x.__thread_id_x"]
    ∧ visit_for [Event.instr "b"]
        ⟨"f.s0.x.__thread_id_x", .intImm int32T 3, .intImm int32T 16, 0⟩ =
      .error Err.ContractViolation
    ∧ visit_for [Event.instr "b"]
        ⟨"f.s0.x", .intImm int32T 0, .intImm int32T 16, 0⟩ =
      .ok [Event.genericFor ⟨"f.s0.x", .intImm int32T 0, .intImm int32T 16, 0⟩] :=
  ⟨(C3_axis_loop [Event.instr "b"] _).2.2.1 "llvm.nvvm.read.ptx.sreg.tid.x"
      (by decide) (by decide) (by decide),
   (C3_axis_loop [Event.instr "b"] _).2.1 (by decide) (by decide),
   (C3_axis_loop [Event.instr "b"] _).2.2.2 (by decide)⟩

/-- C4: an atomic region with a non-empty mutex name fails with
UnsupportedConstruct regardless of its body; with an empty mutex name
the inside-atomic-region flag is set exactly for the body (stores of the
body are lowered with the flag true) and the previous flag value is
restored on exit; every store lowered with the flag set must be
unpredicated and at least 32 bits wide, failing with
UnsupportedAtomicWidth otherwise. -/
theorem C4_atomic_region (emit : Bool) (op : AtomicNode) (s : StoreNode) :
    (op.mutex_name ≠ "" → visit_atomic emit op = .error Err.UnsupportedConstruct)
    ∧ (op.mutex_name = "" →
        visit_atomic emit op =
          match op.body.mapM (visit_store true) with
          | .ok lowered => .ok (lowered, emit)
          | .error e => .error e)
    ∧ (¬(is_const_one s.predicate = true ∧ 32 ≤ (exprType s.value).bits) →
        visit_store true s = .error Err.UnsupportedAtomicWidth)
    ∧ (is_const_one s.predicate = true → 32 ≤ (exprType s.value).bits →
        exceptOk (visit_store true s) = true) := by
  refine ⟨?_, ?_, ?_, ?_⟩
  · intro h
    simp [visit_atomic, h]
  · intro h
    simp [visit_atomic, h]
  · intro h
    rcases hp : is_const_one s.predicate with _ | _
    · simp [visit_store, hp]
    · have hb : (exprType s.value).bits < 32 := by
        rcases Nat.lt_or_ge (exprType s.value).bits 32 with hb | hb
        · exact hb
        · exact absurd ⟨hp, hb⟩ h
      simp [visit_store, hp, hb]
  · intro hp hb
    have hb2 : ¬ ((exprType s.value).bits < 32) := by omega
    unfold visit_store
    simp only [hp, hb2]
    rcases s.index with _ | _ | _ | _ | _ | ⟨base, stride, lanes⟩ | _ | _ | _ | _
    all_goals simp [exceptOk]
    all_goals split_ifs <;> simp [exceptOk]

/-- Witness for C4: a mutex-guarded atomic fails, an empty-mutex atomic
lowers its store with the flag set and restores the flag, a narrow store
under the flag fails, and a 32-bit unpredicated store under the flag
succeeds. -/
theorem C4_atomic_region_witness :
    visit_atomic false ⟨"m", []⟩ = .error Err.UnsupportedConstruct
    ∧ visit_store true
        ⟨"buf", .var ⟨TypeCode.uint, 8, 1⟩ "v", .var int32T "i",
         .intImm uint1T 1, ⟨0, 0⟩⟩ = .error Err.UnsupportedAtomicWidth
    ∧ exceptOk (visit_store true
        ⟨"buf", .var int32T "v", .var int32T "i",
         .intImm uint1T 1, ⟨0, 0⟩⟩) = true :=
  ⟨(C4_atomic_region false ⟨"m", []⟩
      ⟨"buf", .var int32T "v", .var int32T "i", .intImm uint1T 1, ⟨0, 0⟩⟩).1
      (by decide),
   (C4_atomic_region false ⟨"m", []⟩
      ⟨"buf", .var ⟨TypeCode.uint, 8, 1⟩ "v", .var int32T "i",
       .intImm uint1T 1, ⟨0, 0⟩⟩).2.2.1 (by decide),
   (C4_atomic_region false ⟨"m", []⟩
      ⟨"buf", .var int32T "v", .var int32T "i",
       .intImm uint1T 1, ⟨0, 0⟩⟩).2.2.2 (by decide) (by decide)⟩

/-- C5: an allocation with a custom-construction expression is rejected
with UnsupportedConstruct; a shared-scratch allocation binds the name to
the null pointer in address space 3 and computes nothing else; a local
allocation needs a statically known positive element count (failing with
DynamicSizeInKernel otherwise) and emits one fixed-size alloca in the
entry block, binds the name and lowers the body, leaving the binding to
the matching Free, which only pops and emits no instruction. -/
theorem C5_allocate (bodyEvents : List Event) (alloc : AllocNode) :
    (alloc.new_expr.isSome = true →
        visit_allocate bodyEvents alloc = .error Err.UnsupportedConstruct)
    ∧ (alloc.new_expr = none → alloc.memory_type = MemType.gpuShared →
        visit_allocate bodyEvents alloc =
          .ok ([Event.push alloc.name (BoundValue.nullPtr 3)] ++ bodyEvents))
    ∧ (alloc.new_expr = none → alloc.memory_type ≠ MemType.gpuShared →
        constant_allocation_size alloc.extents ≤ 0 →
        visit_allocate bodyEvents alloc = .error Err.DynamicSizeInKernel)
    ∧ (alloc.new_expr = none → alloc.memory_type ≠ MemType.gpuShared →
        0 < constant_allocation_size alloc.extents →
        visit_allocate bodyEvents alloc =
          .ok ([Event.alloca alloc.name alloc.t (constant_allocation_size alloc.extents) true,
                Event.push alloc.name (BoundValue.allocaPtr alloc.name)] ++ bodyEvents))
    ∧ (∀ n, visit_free n = [Event.pop n]) := by
  refine ⟨?_, ?_, ?_, ?_, fun _ => rfl⟩
  · intro h
    simp [visit_allocate, h]
  · intro h hm
    simp [visit_allocate, h, hm]
  · intro h hm hs
    simp [visit_allocate, h, hm, hs]
  · intro h hm hs
    have hs2 : ¬ (constant_allocation_size alloc.extents ≤ 0) := by omega
    simp [visit_allocate, h, hm, hs2]

/-- Witness for C5: a custom-new allocation fails; a shared allocation
binds the null pointer of address space 3; a 8x4-element local
allocation allocas 32 elements in the entry block; a dynamically sized
local allocation fails. -/
theorem C5_allocate_witness :
    visit_allocate [Event.instr "b"]
        ⟨"a", int32T, MemType.stack, some (.var int32T "p"), [.intImm int32T 8]⟩ =
      .error Err.UnsupportedConstruct
    ∧ visit_allocate [Event.instr "b"]
        ⟨"sh", int32T, MemType.gpuShared, none, []⟩ =
      .ok [Event.push "sh" (BoundValue.nullPtr 3), Event.instr "b"]
    ∧ visit_allocate [Event.instr "b"]
        ⟨"loc", int32T, MemType.stack, none, [.intImm int32T 8, .intImm int32T 4]⟩ =
      .ok [Event.alloca "loc" int32T 32 true,
           Event.push "loc" (BoundValue.allocaPtr "loc"), Event.instr "b"]
    ∧ visit_allocate [Event.instr "b"]
        ⟨"dyn", int32T, MemType.stack, none, [.var int32T "n"]⟩ =
      .error Err.DynamicSizeInKernel :=
  ⟨(C5_allocate [Event.instr "b"] _).1 (by decide),
   (C5_allocate [Event.instr "b"] _).2.1 rfl rfl,
   (C5_allocate [Event.instr "b"]
      ⟨"loc", int32T, MemType.stack, none, [.intImm int32T 8, .intImm int32T 4]⟩).2.2.2.1
      rfl (by decide) (by decide),
   (C5_allocate [Event.instr "b"] _).2.2.1 rfl (by decide) (by decide)⟩

/-- C6: the barrier intrinsic fails with MalformedIntrinsic unless it
carries exactly one compile-time constant integer argument; when well
formed it always lowers to the full block-wide synchronization primitive
llvm.nvvm.barrier0 with result value zero, for every requested fence
scope. -/
theorem C6_barrier (op : CallNode) :
    (op.isIntrinsic = true → op.name = "gpu_thread_barrier" → op.args.length ≠ 1 →
        visit_call op = .error Err.MalformedIntrinsic)
    ∧ (∀ f, op.isIntrinsic = true → op.name = "gpu_thread_barrier" → op.args = [f] →
        as_const_int f = none → visit_call op = .error Err.MalformedIntrinsic)
    ∧ (∀ f v, op.isIntrinsic = true → op.name = "gpu_thread_barrier" → op.args = [f] →
        as_const_int f = some v →
        visit_call op =
          .ok (CallLowering.barrier "llvm.nvvm.barrier0" (.intImm int32T 0))) := by
  refine ⟨?_, ?_, ?_⟩
  · intro hi hn hl
    unfold visit_call
    simp only [hi, hn]
    rcases ha : op.args with _ | ⟨f, rest⟩
    · simp
    · rcases rest with _ | ⟨g, rest2⟩
      · rw [ha] at hl; simp at hl
      · simp
  · intro f hi hn ha hc
    simp [visit_call, hi, hn, ha, hc]
  · intro f v hi hn ha hc
    simp [visit_call, hi, hn, ha, hc]

/-- Witness for C6: a barrier with two arguments fails, one with a
non-constant fence argument fails, and well-formed barriers with two
different fence scopes both lower to the same full barrier with result
zero. -/
theorem C6_barrier_witness :
    visit_call ⟨"gpu_thread_barrier", true, [.intImm int32T 0, .intImm int32T 1]⟩ =
      .error Err.MalformedIntrinsic
    ∧ visit_call ⟨"gpu_thread_barrier", true, [.var int32T "fence"]⟩ =
      .error Err.MalformedIntrinsic
    ∧ visit_call ⟨"gpu_thread_barrier", true, [.intImm int32T 0]⟩ =
      .ok (CallLowering.barrier "llvm.nvvm.barrier0" (.intImm int32T 0))
    ∧ visit_call ⟨"gpu_thread_barrier", true, [.intImm int32T 3]⟩ =
      .ok (CallLowering.barrier "llvm.nvvm.barrier0" (.intImm int32T 0)) :=
  ⟨(C6_barrier _).1 rfl rfl (by decide),
   (C6_barrier _).2.1 (.var int32T "fence") rfl rfl rfl (by decide),
   (C6_barrier _).2.2 (.intImm int32T 0) 0 rfl rfl rfl (by decide),
   (C6_barrier _).2.2 (.intImm int32T 3) 3 rfl rfl rfl (by decide)⟩

/-- The wide-load fusion precondition as the spec lists it: stride-one
4-lane ramp index, 32-bit elements, trivially-true predicate, alignment
modulus and remainder both multiples of 4. -/
def loadFusionPre (op : LoadNode) : Bool :=
  match op.index with
  | .ramp _ stride lanes =>
      is_const_one op.predicate && is_const_one stride && lanes == 4
      && op.t.bits == 32 && op.alignment.modulus % 4 == 0
      && op.alignment.remainder % 4 == 0
  | _ => false

/-- The wide-store fusion precondition (same as for loads, with the bit
width taken from the stored value). -/
def storeFusionPre (op : StoreNode) : Bool :=
  match op.index with
  | .ramp _ stride lanes =>
      is_const_one op.predicate && is_const_one stride && lanes == 4
      && (exprType op.value).bits == 32 && op.alignment.modulus % 4 == 0
      && op.alignment.remainder % 4 == 0
  | _ => false

/-- C2: every load and store with a stride-one 4-lane ramp index, 32-bit
elements, trivially-true predicate and alignment modulus and remainder
both multiples of 4 is rewritten into a single 128-bit access at index
base/4 with alignment divided by 4, reinterpreted back to the 4-lane
32-bit view; when any precondition fails, no rewrite occurs and the
generic per-lane path is used. -/
theorem C2_wide_access_fusion (op : LoadNode) (sp : StoreNode) :
    (∀ base stride lanes, op.index = .ramp base stride lanes →
        is_const_one op.predicate = true → is_const_one stride = true →
        lanes = 4 → op.t.bits = 32 →
        (4:Int) ∣ op.alignment.modulus → (4:Int) ∣ op.alignment.remainder →
        visit_load op =
          .fused (.reinterpret op.t
            (.load uint128T op.name (.div base (.intImm (exprType base) 4))
              (const_true 1) (mrDiv4 op.alignment))))
    ∧ (loadFusionPre op = false → visit_load op = .generic)
    ∧ (∀ base stride lanes, sp.index = .ramp base stride lanes →
        is_const_one sp.predicate = true → is_const_one stride = true →
        lanes = 4 → (exprType sp.value).bits = 32 →
        (4:Int) ∣ sp.alignment.modulus → (4:Int) ∣ sp.alignment.remainder →
        visit_store false sp =
          .ok (StoreLowering.fused
            ⟨sp.name, .reinterpret uint128T sp.value,
             .div base (.intImm (exprType base) 4), const_true 1,
             mrDiv4 sp.alignment⟩))
    ∧ (storeFusionPre sp = false → visit_store false sp = .ok StoreLowering.generic) := by
  refine ⟨?_, ?_, ?_, ?_⟩
  · intro base stride lanes hidx hp hs hl hb hdm hdr
    simp [visit_load, hidx, hp, hs, hl, hb,
      Int.emod_eq_zero_of_dvd hdm, Int.emod_eq_zero_of_dvd hdr]
  · intro h
    revert h
    unfold visit_load loadFusionPre
    rcases op.index with _ | _ | _ | _ | _ | ⟨base, stride, lanes⟩ | _ | _ | _ | _ <;>
      intro h <;> try rfl
    dsimp only at h ⊢
    by_cases h1 : (is_const_one op.predicate && is_const_one stride && lanes == 4
        && op.t.bits == 32) = true
    · rw [h1, Bool.true_and] at h
      simp [h1, h]
    · simp [h1]
  · intro base stride lanes hidx hp hs hl hb hdm hdr
    simp [visit_store, hidx, hp, hs, hl, hb,
      Int.emod_eq_zero_of_dvd hdm, Int.emod_eq_zero_of_dvd hdr]
  · intro h
    revert h
    unfold visit_store storeFusionPre
    simp only [Bool.false_and, Bool.false_eq_true, if_false]
    rcases sp.index with _ | _ | _ | _ | _ | ⟨base, stride, lanes⟩ | _ | _ | _ | _ <;>
      intro h <;> try rfl
    dsimp only at h ⊢
    by_cases h1 : (is_const_one sp.predicate && is_const_one stride && lanes == 4
        && (exprType sp.value).bits == 32) = true
    · rw [h1, Bool.true_and] at h
      simp [h1, h]
    · simp [h1]

/-- Witness for C2: a 4-lane stride-one aligned 32-bit load fuses into a
128-bit load at base/4; a 3-lane load does not and goes generic; the
corresponding store fuses; a predicated store goes generic. -/
theorem C2_wide_access_fusion_witness :
    visit_load
        ⟨⟨TypeCode.int, 32, 4⟩, "buf",
         .ramp (.var int32T "i") (.intImm int32T 1) 4, .intImm uint1T 1, ⟨8, 4⟩⟩ =
      .fused (.reinterpret ⟨TypeCode.int, 32, 4⟩
        (.load uint128T "buf" (.div (.var int32T "i") (.intImm int32T 4))
          (const_true 1) ⟨2, 1⟩))
    ∧ visit_load
        ⟨⟨TypeCode.int, 32, 3⟩, "buf",
         .ramp (.var int32T "i") (.intImm int32T 1) 3, .intImm uint1T 1, ⟨8, 4⟩⟩ =
      .generic
    ∧ visit_store false
        ⟨"buf", .var ⟨TypeCode.int, 32, 4⟩ "v",
         .ramp (.var int32T "i") (.intImm int32T 1) 4, .intImm uint1T 1, ⟨8, 4⟩⟩ =
      .ok (StoreLowering.fused
        ⟨"buf", .reinterpret uint128T (.var ⟨TypeCode.int, 32, 4⟩ "v"),
         .div (.var int32T "i") (.intImm int32T 4), const_true 1, ⟨2, 1⟩⟩)
    ∧ visit_store false
        ⟨"buf", .var ⟨TypeCode.int, 32, 4⟩ "v",
         .ramp (.var int32T "i") (.intImm int32T 1) 4, .var uint1T "p", ⟨8, 4⟩⟩ =
      .ok StoreLowering.generic := by
  refine ⟨?_, ?_, ?_, ?_⟩
  · exact (C2_wide_access_fusion
      ⟨⟨TypeCode.int, 32, 4⟩, "buf",
       .ramp (.var int32T "i") (.intImm int32T 1) 4, .intImm uint1T 1, ⟨8, 4⟩⟩
      ⟨"buf", .var ⟨TypeCode.int, 32, 4⟩ "v",
       .ramp (.var int32T "i") (.intImm int32T 1) 4, .intImm uint1T 1, ⟨8, 4⟩⟩).1
      (.var int32T "i") (.intImm int32T 1) 4 rfl rfl rfl rfl rfl
      (by decide) (by decide)
  · exact (C2_wide_access_fusion
      ⟨⟨TypeCode.int, 32, 3⟩, "buf",
       .ramp (.var int32T "i") (.intImm int32T 1) 3, .intImm uint1T 1, ⟨8, 4⟩⟩
      ⟨"buf", .var ⟨TypeCode.int, 32, 4⟩ "v",
       .ramp (.var int32T "i") (.intImm int32T 1) 4, .intImm uint1T 1, ⟨8, 4⟩⟩).2.1
      (by decide)
  · exact (C2_wide_access_fusion
      ⟨⟨TypeCode.int, 32, 4⟩, "buf",
       .ramp (.var int32T "i") (.intImm int32T 1) 4, .intImm uint1T 1, ⟨8, 4⟩⟩
      ⟨"buf", .var ⟨TypeCode.int, 32, 4⟩ "v",
       .ramp (.var int32T "i") (.intImm int32T 1) 4, .intImm uint1T 1, ⟨8, 4⟩⟩).2.2.1
      (.var int32T "i") (.intImm int32T 1) 4 rfl rfl rfl rfl rfl
      (by decide) (by decide)
  · exact (C2_wide_access_fusion
      ⟨⟨TypeCode.int, 32, 4⟩, "buf",
       .ramp (.var int32T "i") (.intImm int32T 1) 4, .intImm uint1T 1, ⟨8, 4⟩⟩
      ⟨"buf", .var ⟨TypeCode.int, 32, 4⟩ "v",
       .ramp (.var int32T "i") (.intImm int32T 1) 4, .var uint1T "p", ⟨8, 4⟩⟩).2.2.2
      (by decide)

/-- C10: the wide-store fusion is not disabled inside an atomic region:
a store satisfying the fusion preconditions lowers to the same single
fused 128-bit store whether or not the inside-atomic-region flag is
set. -/
theorem C10_fusion_in_atomic (sp : StoreNode) (base stride : Expr) (lanes : Nat)
    (hidx : sp.index = .ramp base stride lanes)
    (hp : is_const_one sp.predicate = true) (hs : is_const_one stride = true)
    (hl : lanes = 4) (hb : (exprType sp.value).bits = 32)
    (hdm : (4:Int) ∣ sp.alignment.modulus) (hdr : (4:Int) ∣ sp.alignment.remainder) :
    visit_store true sp = visit_store false sp
    ∧ visit_store true sp =
        .ok (StoreLowering.fused
          ⟨sp.name, .reinterpret uint128T sp.value,
           .div base (.intImm (exprType base) 4), const_true 1,
           mrDiv4 sp.alignment⟩) := by
  have hb2 : ¬ ((exprType sp.value).bits < 32) := by omega
  constructor
  · simp [visit_store, hp, hb2]
  · simp [visit_store, hidx, hp, hs, hl, hb, hb2,
      Int.emod_eq_zero_of_dvd hdm, Int.emod_eq_zero_of_dvd hdr]

/-- Witness for C10: a concrete fusible store lowers identically with
the atomic flag set and unset, into the fused 128-bit store. -/
theorem C10_fusion_in_atomic_witness :
    visit_store true
        ⟨"buf", .var ⟨TypeCode.int, 32, 4⟩ "v",
         .ramp (.var int32T "i") (.intImm int32T 1) 4, .intImm uint1T 1, ⟨8, 4⟩⟩ =
      visit_store false
        ⟨"buf", .var ⟨TypeCode.int, 32, 4⟩ "v",
         .ramp (.var int32T "i") (.intImm int32T 1) 4, .intImm uint1T 1, ⟨8, 4⟩⟩
    ∧ visit_store true
        ⟨"buf", .var ⟨TypeCode.int, 32, 4⟩ "v",
         .ramp (.var int32T "i") (.intImm int32T 1) 4, .intImm uint1T 1, ⟨8, 4⟩⟩ =
      .ok (StoreLowering.fused
        ⟨"buf", .reinterpret uint128T (.var ⟨TypeCode.int, 32, 4⟩ "v"),
         .div (.var int32T "i") (.intImm int32T 4), const_true 1, ⟨2, 1⟩⟩) :=
  C10_fusion_in_atomic
    ⟨"buf", .var ⟨TypeCode.int, 32, 4⟩ "v",
     .ramp (.var int32T "i") (.intImm int32T 1) 4, .intImm uint1T 1, ⟨8, 4⟩⟩
    (.var int32T "i") (.intImm int32T 1) 4 rfl rfl rfl rfl rfl
    (by decide) (by decide)

/-- Spec-side description of the 8-bit narrowing of one operand: signed
first with a per-operand unsigned retry for a signed target, unsigned
only for an unsigned target. -/
def spec_narrow8 (lc : HType → Expr → Option Expr) (uintTarget : Bool) (L : Nat)
    (e : Expr) : Option Expr :=
  if uintTarget then
    lc (uint8V L) e
  else
    match lc (int8V L) e with
    | some a => some a
    | none => lc (uint8V L) e

/-- Spec-side description of the 16-bit narrowing of the remaining
operand: unsigned first, then signed for a signed target. -/
def spec_narrow16 (lc : HType → Expr → Option Expr) (uintTarget : Bool) (L : Nat)
    (e : Expr) : Option Expr :=
  match lc (uint16V L) e with
  | some a => some a
  | none => if uintTarget then none else lc (int16V L) e

/-- Spec-side description of the (amended) narrowing outcome: both
operands are first tried at 8-bit; if both narrow they are fused in
order; if exactly one narrows to 8-bit it ends up as the SECOND operand
of the fused call and the other operand is retried at 16-bit in the
first slot; if either slot is still undefined there is no fusion. -/
def spec_dot_outcome (lc : HType → Expr → Option Expr) (uintTarget : Bool) (L : Nat)
    (ma mb i : Expr) : VRLowering :=
  match spec_narrow8 lc uintTarget L ma, spec_narrow8 lc uintTarget L mb with
  | some a, some b => VRLowering.fused (dpName (exprType a) (exprType b)) a b i
  | some a8, none =>
      match spec_narrow16 lc uintTarget L mb with
      | some a16 => VRLowering.fused (dpName (exprType a16) (exprType a8)) a16 a8 i
      | none => VRLowering.generic
  | none, some b8 =>
      match spec_narrow16 lc uintTarget L ma with
      | some a16 => VRLowering.fused (dpName (exprType a16) (exprType b8)) a16 b8 i
      | none => VRLowering.generic
  | none, none => VRLowering.generic

/-- Helper: the narrowing core agrees with the spec-side description of
the amended claim, for every lossless_cast oracle. -/
theorem dot_product_eq_spec (lc : HType → Expr → Option Expr) (t : HType) (L : Nat)
    (ma mb i : Expr) :
    codegen_dot_product lc t L ma mb i = spec_dot_outcome lc t.is_uint L ma mb i := by
  unfold codegen_dot_product narrow8pair spec_dot_outcome spec_narrow8 spec_narrow16
  by_cases hu : t.is_uint = true
  · simp only [hu, if_true]
    rcases h1 : lc (uint8V L) ma with _ | a <;> rcases h2 : lc (uint8V L) mb with _ | b <;>
      simp [h1, h2] <;> rcases h3 : lc (uint16V L) ma with _ | a16 <;>
      rcases h4 : lc (uint16V L) mb with _ | b16 <;> simp [h3, h4]
  · simp only [Bool.not_eq_true] at hu
    simp only [hu, Bool.false_eq_true, if_false]
    rcases h1 : lc (int8V L) ma with _ | a <;> rcases h2 : lc (int8V L) mb with _ | b <;>
      rcases h3 : lc (uint8V L) ma with _ | au <;>
      rcases h4 : lc (uint8V L) mb with _ | bu <;>
      simp [h1, h2, h3, h4] <;>
      rcases h5 : lc (uint16V L) ma with _ | a16 <;>
      rcases h6 : lc (uint16V L) mb with _ | b16 <;>
      simp [h5, h6] <;>
      rcases h7 : lc (int16V L) ma with _ | a16s <;>
      rcases h8 : lc (int16V L) mb with _ | b16s <;>
      simp [h7, h8]

/-- C1 (amended): for a sum vector-reduce of a multiply with a positive
multiple-of-4 lane ratio and 32-bit integer element type, the matcher
first attempts to narrow both operands losslessly to 8-bit (signed with
per-operand unsigned retry for a signed target, unsigned for an unsigned
target); if exactly one operand narrows to 8-bit, the operands are
swapped so that the 8-bit-narrowed operand is the SECOND operand and the
other is narrowed to 16-bit, unsigned first and then signed for a signed
target; if either operand is still undefined after these steps, no
fusion occurs and the reduction is lowered by the generic path. -/
theorem C1_dot_narrowing (lc : HType → Expr → Option Expr) (rop : ReduceOp)
    (tt : HType) (ma mb i0 : Expr)
    (hop : rop = ReduceOp.add)
    (helem : tt.element_of = int32T ∨ tt.element_of = uint32T)
    (_hpos : 0 < (exprType (Expr.mul ma mb)).lanes / tt.lanes)
    (hfac : (exprType (Expr.mul ma mb)).lanes / tt.lanes % 4 = 0) :
    codegen_vector_reduce lc ⟨rop, .mul ma mb, tt⟩ (some i0) =
      spec_dot_outcome lc tt.is_uint (exprType (Expr.mul ma mb)).lanes ma mb i0 := by
  subst hop
  unfold codegen_vector_reduce
  have hgate : (ReduceOp.add == ReduceOp.add
      && (exprType (Expr.mul ma mb)).lanes / tt.lanes % 4 == 0
      && (tt.element_of == int32T || tt.element_of == uint32T)) = true := by
    rcases helem with h | h <;> simp [hfac, h]
  dsimp only
  rw [hgate]
  simp only [if_true, Option.getD_some]
  exact dot_product_eq_spec lc tt (exprType (Expr.mul ma mb)).lanes ma mb i0

/-- Operand A of the counterexample reduction. -/
def vA : Expr := .var ⟨TypeCode.int, 32, 4⟩ "A"

/-- Operand B of the counterexample reduction. -/
def vB : Expr := .var ⟨TypeCode.int, 32, 4⟩ "B"

/-- The 8-bit narrowing of operand A in the counterexample. -/
def a8ex : Expr := .var (int8V 4) "A8"

/-- The 16-bit narrowing of operand B in the counterexample. -/
def b16ex : Expr := .var (uint16V 4) "B16"

/-- A lossless_cast oracle under which operand A narrows to 8-bit signed
only and operand B narrows to 16-bit unsigned only. -/
def lcEx (t : HType) (e : Expr) : Option Expr :=
  if t = int8V 4 ∧ e = vA then some a8ex
  else if t = uint16V 4 ∧ e = vB then some b16ex
  else none

/-- The counterexample reduction: a 4-to-1 sum reduce of A*B with
signed 32-bit output. -/
def vrEx : VectorReduceNode := ⟨ReduceOp.add, .mul vA vB, int32T⟩

/-- The initial accumulator of the counterexample. -/
def i0Ex : Expr := .var int32T "acc"

/-- Counterexample to C1 as stated: when only operand A narrows to
8-bit, the fused call has the 16-bit-narrowed operand B in the FIRST
slot and the 8-bit-narrowed operand A in the second (selecting
dp2a_u32_s32); the claim predicts the 8-bit operand in the first slot
(which would select dp4a_s32_u32). -/
theorem C1_dot_narrowing_counterexample :
    codegen_vector_reduce lcEx vrEx (some i0Ex) =
      VRLowering.fused "dp2a_u32_s32" b16ex a8ex i0Ex
    ∧ (exprType b16ex).bits = 16 ∧ (exprType a8ex).bits = 8
    ∧ "dp2a_u32_s32" ≠ "dp4a_s32_u32" := by
  refine ⟨?_, rfl, rfl, by decide⟩
  rfl

/-- Witness for C1 (amended): the amended characterization evaluated at
the counterexample oracle and reduction. -/
theorem C1_dot_narrowing_witness :
    codegen_vector_reduce lcEx vrEx (some i0Ex) =
      spec_dot_outcome lcEx int32T.is_uint (exprType (Expr.mul vA vB)).lanes vA vB i0Ex :=
  C1_dot_narrowing lcEx ReduceOp.add int32T vA vB i0Ex rfl (Or.inl rfl)
    (by decide) (by decide)

/-- The device argument of the C9 counterexample. -/
def argEx : DeviceArgument := ⟨"buf0", true, ⟨TypeCode.uint, 8, 1⟩⟩

/-- Counterexample to C9 as stated: with both structural verifications
reporting failure, add_kernel still completes the emission — it does not
fail with ValidationFailed and the function stays in the module. -/
theorem C9_validation_counterexample :
    add_kernel [argEx] [] false false ≠ Except.error Err.ValidationFailed
    ∧ add_kernel [argEx] [] false false =
        Except.ok
          { events := [KEvent.createFunction, KEvent.markNoAlias "buf0",
                       KEvent.push "buf0", KEvent.retVoid, KEvent.brEntryToBody,
                       KEvent.markKernelEntry, KEvent.verifyFunction false,
                       KEvent.verifyModule false, KEvent.pop "buf0"],
            functionInModule := true } :=
  ⟨fun h => Except.noConfusion h, rfl⟩

/-- C9 (amended): after lowering the body, add_kernel records the
structural verification of the function and of the module and pops all
argument bindings, but the verification verdicts are discarded: for
every verification outcome the result is a completed emission, never a
ValidationFailed error. -/
theorem C9_kernel_emission (args : List DeviceArgument) (bodyEvents : List KEvent)
    (fnOk modOk : Bool) :
    ∃ r : AddKernelResult,
      add_kernel args bodyEvents fnOk modOk = Except.ok r
      ∧ KEvent.verifyFunction fnOk ∈ r.events
      ∧ KEvent.verifyModule modOk ∈ r.events
      ∧ (∃ pre, r.events = pre ++ args.map (fun a => KEvent.pop a.name))
      ∧ r.functionInModule = true := by
  refine ⟨_, rfl, ?_, ?_, ⟨_, rfl⟩, rfl⟩ <;> simp [add_kernel]

end PTXDev
